import Mathlib

/-!
# Verification of the claude-neovim session and diff-coordination engine

Shallow embedding of the TypeScript sources of the `claude-neovim` plugin:

* `src/rplugin/node/claude-nvim/src/mcp-tools.ts` — the diff coordinator
  (`diffPromises` table, `acceptChanges`, `dropChanges`, `openDiff`,
  `close_tab`);
* `src/rplugin/node/claude-nvim/src/ws-server.ts` —
  `createClaudeWebSocketServer` (lock/discovery file, `verifyClient`);
* the server manager (`ClaudeMcpServerManager`: `stop`, heartbeat intervals,
  selection tracking, `sendSelectionChanged` / `sendEmptySelection`).

Editor (Neovim) state is modelled as a list of buffers; asynchronous promise
completion is modelled by an explicit list of resolution events emitted by
each operation; the JavaScript `Map` becomes an association list with
first-match lookup (JS `Map` keys are unique, so this is exact).
-/

/-- A Neovim buffer, as seen through the `neovim` node client:
`buf.id` (bufnr), `buf.name`, `buf.lines`, and the `modified` option. -/
structure Buffer where
  id : Nat
  name : String
  lines : List String
  modified : Bool
  deriving Repr, DecidableEq

/-- The editor state observable through `nvim.buffers`. -/
abbrev Editor := List Buffer

/-- Models `buffers.find(buf => buf.id === bufnr)`. -/
def findBuffer (ed : Editor) (bufnr : Nat) : Option Buffer :=
  ed.find? (fun b => b.id == bufnr)

/-- Models `buffer.setOption('modified', m)` on the buffer with id `bufnr`. -/
def setBufModified (ed : Editor) (bufnr : Nat) (m : Bool) : Editor :=
  ed.map (fun b => if b.id == bufnr then { b with modified := m } else b)

/-- Models `await nvim.call('bufnr', [name])`: the buffer whose name matches
(`-1`, i.e. `none`, when there is no such buffer). -/
def findBufferByName (ed : Editor) (name : String) : Option Buffer :=
  ed.find? (fun b => b.name == name)

/-! ## The diffPromises table (mcp-tools.ts, lines 30-36) -/

/-- One `{type:'text', text}` content item of an MCP tool result. -/
inductive ContentItem where
  | text (s : String)
  deriving Repr, DecidableEq

/-- The metadata stored in `diffPromises` alongside the promise callbacks:
`{filePath, bufnr}` (the `resolve`/`reject` continuations are modelled by
the resolution events each operation emits). -/
structure DiffRecord where
  filePath : String
  bufnr : Nat
  deriving Repr, DecidableEq

/-- Models `diffPromises : Map<string, {...}>` — an association list whose keys are
the change ids `"${pid}/${bufnr}"`; JS `Map` keys are unique. -/
abbrev DiffPromises := List (String × DiffRecord)

/-- Models `map.has(k)`. -/
def mapHas (ps : DiffPromises) (k : String) : Bool :=
  ps.any (fun p => p.1 == k)

/-- Models `map.get(k)`. -/
def mapGet? (ps : DiffPromises) (k : String) : Option DiffRecord :=
  (ps.find? (fun p => p.1 == k)).map Prod.snd

/-- Models `map.delete(k)`: removes the (unique) binding for `k`. -/
def mapDelete (ps : DiffPromises) (k : String) : DiffPromises :=
  ps.filter (fun p => p.1 != k)

/-- Models `map.set(k, v)`: overwrite in place if present, else append. -/
def mapSet (ps : DiffPromises) (k : String) (v : DiffRecord) : DiffPromises :=
  if mapHas ps k then ps.map (fun p => if p.1 == k then (k, v) else p)
  else ps ++ [(k, v)]

/-- Models `"${pid}/${bufnr}"` — the correlation key built in `openDiff`,
`close_tab`, `ClaudeAccept`, `ClaudeDrop` and the `BufWipeout` autocmd. -/
def mkChangeId (pid bufnr : Nat) : String :=
  toString pid ++ "/" ++ toString bufnr

/-- Models `s.split('/')` over the character list (structural recursion so the
kernel can evaluate it on concrete keys). -/
def splitSlashAux : List Char → List Char → List (List Char)
  | [], acc => [acc.reverse]
  | c :: rest, acc =>
      if c = '/' then acc.reverse :: splitSlashAux rest []
      else splitSlashAux rest (c :: acc)

/-- Models `changeId.split('/')`. -/
def splitSlash (s : String) : List (List Char) :=
  splitSlashAux s.data []

/-- Decimal value of a digit string (used by `parseIntLeading`). -/
def digitsToNat (acc : Nat) : List Char → Nat
  | [] => acc
  | c :: cs => digitsToNat (acc * 10 + (c.toNat - 48)) cs

/-- JavaScript `parseInt` in base 10: reads the longest leading run of
digits; `NaN` (here `none`) when there is none. -/
def parseIntLeading (cs : List Char) : Option Nat :=
  match cs.takeWhile Char.isDigit with
  | [] => none
  | ds => some (digitsToNat 0 ds)

/-- Models `parseInt(changeId.split('/')[1])` as used by `acceptChanges` and
`dropChanges` (mcp-tools.ts lines 48 and 89). `none` stands for `NaN`. -/
def parseBufnr (changeId : String) : Option Nat :=
  ((splitSlash changeId).get? 1).bind parseIntLeading

/-- Completing a pending continuation: `resolve(payload)` for the change id
of the record being resolved. -/
structure ResolveEvent where
  key : String
  payload : List ContentItem
  deriving Repr, DecidableEq

/-- The payload `[{type:'text',text:'FILE_SAVED'},{type:'text',text:content}]`. -/
def fileSavedPayload (content : String) : List ContentItem :=
  [.text "FILE_SAVED", .text content]

/-- The payload `[{type:'text',text:'DIFF_REJECTED'}]`. -/
def diffRejectedPayload : List ContentItem :=
  [.text "DIFF_REJECTED"]

/-- Result of `acceptChanges` / `dropChanges`: the returned boolean, the
updated `diffPromises` table, the updated editor, and the continuation
completions performed. -/
structure ResolveResult where
  success : Bool
  pending : DiffPromises
  editor : Editor
  events : List ResolveEvent
  deriving Repr, DecidableEq

/-- Models `acceptChanges` (mcp-tools.ts lines 39-77):
if `changeId` is not in the table, return false; otherwise parse the bufnr
out of the change id, look the buffer up, and if it is gone log an error and
return false (table untouched); otherwise read the buffer's lines, join with
`'\n'`, clear the `modified` flag, delete the table entry, resolve the
promise with the FILE_SAVED payload carrying the content, return true. -/
def acceptChanges (ps : DiffPromises) (ed : Editor) (changeId : String) :
    ResolveResult :=
  if mapHas ps changeId then
    match (parseBufnr changeId).bind (findBuffer ed) with
    | none => ⟨false, ps, ed, []⟩
    | some buffer =>
        let content := String.intercalate "\n" buffer.lines
        let ed' := setBufModified ed buffer.id false
        let ps' := mapDelete ps changeId
        ⟨true, ps', ed', [⟨changeId, fileSavedPayload content⟩]⟩
  else ⟨false, ps, ed, []⟩

/-- Models `dropChanges` (mcp-tools.ts lines 80-108):
if `changeId` is not in the table, return false; otherwise look the buffer
up and, only if it still exists, clear its `modified` flag; in either case
delete the table entry, resolve the promise with the DIFF_REJECTED payload,
and return true. -/
def dropChanges (ps : DiffPromises) (ed : Editor) (changeId : String) :
    ResolveResult :=
  if mapHas ps changeId then
    let ed' := match (parseBufnr changeId).bind (findBuffer ed) with
      | some buffer => setBufModified ed buffer.id false
      | none => ed
    ⟨true, mapDelete ps changeId, ed', [⟨changeId, diffRejectedPayload⟩]⟩
  else ⟨false, ps, ed, []⟩

example :
    acceptChanges [("7/2", ⟨"/a.txt", 2⟩)] [⟨2, "tab1", ["hello", ""], true⟩] "7/2" =
      ⟨true, [], [⟨2, "tab1", ["hello", ""], false⟩],
        [⟨"7/2", fileSavedPayload "hello\n"⟩]⟩ := by decide

example :
    dropChanges [("7/2", ⟨"/a.txt", 2⟩)] [] "7/2" =
      ⟨true, [], [], [⟨"7/2", diffRejectedPayload⟩]⟩ := by decide

example : parseBufnr (mkChangeId 7 2) = some 2 := by decide

/-! ## openDiff and close_tab (mcp-tools.ts lines 111-216) -/

/-- Models `s.split(c)` for a single-character separator, structurally. -/
def splitChAux (sep : Char) : List Char → List Char → List (List Char)
  | [], acc => [acc.reverse]
  | c :: rest, acc =>
      if c = sep then acc.reverse :: splitChAux sep rest []
      else splitChAux sep rest (c :: acc)

/-- Models `new_file_contents.split('\n')` (mcp-tools.ts line 143). -/
def splitNewlines (s : String) : List String :=
  (splitChAux '\x0a' s.data []).map List.asString

/-- The input schema of the `openDiff` tool. -/
structure OpenDiffArgs where
  old_file_path : String
  new_file_path : String
  new_file_contents : String
  tab_name : String
  deriving Repr, DecidableEq

/-- The state-registering half of `openDiff` (mcp-tools.ts lines 122-175):
a fresh listed buffer `bufnr` is created (`nvim_create_buf`), the change id
is `"${pid}/${bufnr}"`, the buffer receives the proposed contents split on
newlines and is renamed to `tab_name` (`ClaudeActivateBufferDiff` makes the
new buffer current, so `nvim.buffer` is the fresh one; setting its lines
marks it modified), and the pending record is stored in `diffPromises`.
The suspended continuation is the table entry itself; `openDiff` returns
only once a resolution event for `changeId` is emitted. -/
def openDiffRegister (ps : DiffPromises) (ed : Editor) (pid bufnr : Nat)
    (args : OpenDiffArgs) : String × DiffPromises × Editor :=
  let changeId := mkChangeId pid bufnr
  let buf : Buffer :=
    { id := bufnr, name := args.tab_name,
      lines := splitNewlines args.new_file_contents, modified := true }
  (changeId, mapSet ps changeId ⟨args.new_file_path, bufnr⟩, ed ++ [buf])

/-- Models `bdelete`/`bdelete!` of a buffer: it disappears from `nvim.buffers`. -/
def removeBuffer (ed : Editor) (bufnr : Nat) : Editor :=
  ed.filter (fun b => b.id != bufnr)

/-- Models `close_tab` (mcp-tools.ts lines 195-215): look the buffer up by
`tab_name` via `bufnr(...)`; if none matches (`-1`), do nothing and return
TAB_CLOSED; otherwise delete it — with `bdelete!` when it is a tracked diff
buffer, plain `bdelete` otherwise (which raises E89 on a modified buffer).
The `diffPromises` entry is not touched here: the BufWipeout autocmd runs
`dropChanges` separately. -/
def close_tab (ps : DiffPromises) (ed : Editor) (pid : Nat) (tab_name : String) :
    Except String (DiffPromises × Editor × String) :=
  match findBufferByName ed tab_name with
  | none => .ok (ps, ed, "TAB_CLOSED")
  | some buf =>
      let isDiffBuffer := mapHas ps (mkChangeId pid buf.id)
      if isDiffBuffer then .ok (ps, removeBuffer ed buf.id, "TAB_CLOSED")
      else if buf.modified then .error "E89: No write since last change"
      else .ok (ps, removeBuffer ed buf.id, "TAB_CLOSED")

/-! ## Server manager state (part_000: ClaudeMcpServerManager) -/

/-- One accepted client: the entry in `clientServers` together with its
`healthCheckIntervals` entry (`heartbeatActive`) and the `pingId` counter
of its `handleClient` closure. `wsOpen` is `ws.readyState === OPEN`. -/
structure ClientSession where
  ws : Nat
  wsOpen : Bool
  heartbeatActive : Bool
  pingId : Nat
  deriving Repr, DecidableEq

/-- The mutable fields of `ClaudeMcpServerManager` that the claims touch:
`running` is `wss !== null`; `sessions` is the `clientServers` map;
`pending` is the `diffPromises` table of the registered tool handlers;
`lockFilePresent` tracks the `~/.claude/ide/<port>.lock` discovery file;
`selectionTracking` and `lastSelectionBuffer` are the selection state. -/
structure ManagerState where
  running : Bool
  port : Nat
  sessions : List ClientSession
  pending : DiffPromises
  lockFilePresent : Bool
  selectionTracking : List Nat
  lastSelectionBuffer : Option Nat
  deriving Repr, DecidableEq

/-- Models `getClientCount()`. -/
def getClientCount (st : ManagerState) : Nat :=
  st.sessions.length

/-- Models `verifyClient` (ws-server.ts lines 89-98): the upgrade is accepted iff
`info.req.headers['x-claude-code-ide-authorization']` is strictly equal to
the server's `authToken`; otherwise `callback(false, 401, 'Unauthorized')`.
`none` models an absent header. -/
def verifyClient (authToken : String) (authHeader : Option String) :
    Bool × Option (Nat × String) :=
  if authHeader == some authToken then (true, none)
  else (false, some (401, "Unauthorized"))

/-- Models `handleClient` (part_000 lines 81-161): a new session is registered in
`clientServers` with a fresh heartbeat interval whose `pingId` starts at 0. -/
def handleClient (st : ManagerState) (ws : Nat) : ManagerState :=
  { st with
    sessions := st.sessions ++ [{ ws, wsOpen := true, heartbeatActive := true, pingId := 0 }] }

/-- An inbound upgrade request: `verifyClient` runs first; only an accepted
upgrade fires the `connection` event and thus `handleClient`. -/
def handleUpgrade (st : ManagerState) (authToken : String)
    (authHeader : Option String) (ws : Nat) :
    ManagerState × Bool × Option (Nat × String) :=
  match verifyClient authToken authHeader with
  | (true, _) => (handleClient st ws, true, none)
  | (false, e) => (st, false, e)

/-! ## stop (part_000 lines 166-208) -/

/-- The externally visible teardown actions of `stop`, in program order. -/
inductive StopEvent where
  | timerCancelled (ws : Nat)
  | mcpServerClosed (ws : Nat)
  | socketClosed (ws : Nat)
  | wssClosed
  | lockFileRemoved
  deriving Repr, DecidableEq

/-- Result of `stop`: the new manager state, the teardown actions performed,
and the diff continuations it completed. -/
structure StopResult where
  state : ManagerState
  events : List StopEvent
  resolved : List ResolveEvent
  deriving Repr, DecidableEq

/-- Models `stop` (part_000 lines 166-208): throws when not running; otherwise, for
each client in order, clears its health-check interval, closes its MCP
server and its socket; clears both maps; closes the `WebSocketServer`
(whose `close` handler in ws-server.ts lines 102-110 unlinks the lock
file); sets `wss = null`. The `diffPromises` tables of the tool handlers
are never touched: `resolved` is literally `[]` and `pending` carries over
unchanged. -/
def stop (st : ManagerState) : Except String StopResult :=
  if !st.running then .error "Server is not running"
  else
    let perClient := st.sessions.flatMap (fun c =>
      [StopEvent.timerCancelled c.ws, .mcpServerClosed c.ws, .socketClosed c.ws])
    .ok { state := { st with running := false, sessions := [], lockFilePresent := false },
          events := perClient ++ [.wssClosed, .lockFileRemoved],
          resolved := [] }

/-! ## Heartbeat (part_000 lines 111-140) -/

/-- The ping request sent directly through the WebSocket on each tick. -/
structure PingMsg where
  id : Nat
  method : String
  jsonrpc : String
  deriving Repr, DecidableEq

/-- One firing of the health-check interval for a session: a cancelled
interval no longer fires; a tick with the socket not OPEN sends nothing and
leaves `pingId` alone; otherwise the probe `{id: pingId++, method:'ping'}`
is sent, and if the send's callback reports an error the interval is
cleared and the connection closed. -/
def heartbeatTick (c : ClientSession) (sendFails : Bool) :
    ClientSession × List PingMsg :=
  if c.heartbeatActive then
    if c.wsOpen then
      let msg : PingMsg := { id := c.pingId, method := "ping", jsonrpc := "2.0" }
      let c' := { c with pingId := c.pingId + 1 }
      if sendFails then
        ({ c' with heartbeatActive := false, wsOpen := false }, [msg])
      else (c', [msg])
    else (c, [])
  else (c, [])

/-- A run of successive interval firings for one session; each entry of the
input says whether that tick's send failed at transport level. -/
def runHeartbeat (c : ClientSession) : List Bool → ClientSession × List PingMsg
  | [] => (c, [])
  | f :: fs =>
      let r1 := heartbeatTick c f
      let r2 := runHeartbeat r1.1 fs
      (r2.1, r1.2 ++ r2.2)

/-- The interval of session `ws` fires; each interval is a per-session
closure, so every other session is mapped through unchanged. -/
def managerTick (st : ManagerState) (ws : Nat) (sendFails : Bool) :
    ManagerState × List PingMsg :=
  let step := st.sessions.map (fun c =>
    if c.ws == ws then heartbeatTick c sendFails else (c, []))
  ({ st with sessions := step.map Prod.fst }, step.flatMap Prod.snd)

/-! ## Selection notifications (part_000 lines 258-464) -/

/-- A 0-indexed `{line, character}` position of the wire protocol. -/
structure Position where
  line : Nat
  character : Nat
  deriving Repr, DecidableEq

/-- One broadcast `selection_changed` notification (the same JSON string is
written to every open client, so one broadcast is one notification). -/
structure SelectionNotif where
  text : String
  filePath : String
  fileUrl : String
  selStart : Position
  selEnd : Position
  isEmpty : Bool
  deriving Repr, DecidableEq

/-- The Neovim UI facts `sendSelectionChanged` queries: the mode string,
`getpos('v')` and `getcurpos()` as 1-indexed `(line, col)` pairs. -/
structure UiState where
  mode : String
  vStart : Nat × Nat
  cursor : Nat × Nat
  deriving Repr, DecidableEq

/-- JS `s.substring(a, b)` (clamping, as on the selected-text path). -/
def jsSubstring (s : String) (a b : Nat) : String :=
  ((s.data.drop a).take (b - a)).asString

/-- JS `s.substring(a)`. -/
def jsSubstringFrom (s : String) (a : Nat) : String :=
  (s.data.drop a).asString

/-- Models `getline(l1, l2)`: the 1-indexed inclusive slice of the buffer lines. -/
def getline (lines : List String) (l1 l2 : Nat) : List String :=
  (lines.drop (l1 - 1)).take (l2 + 1 - l1)

/-- The selected-text computation of part_000 lines 308-316 on the visual
path: a single line takes `substring(startCol-1, endCol)`, several lines
join the clipped first line, the middle lines, and the clipped last line. -/
def visualText (lines : List String) (startCol endCol : Nat) : String :=
  match lines with
  | [] => ""
  | [l] => jsSubstring l (startCol - 1) endCol
  | l :: rest =>
      jsSubstringFrom l (startCol - 1) ++ "\n" ++
      String.intercalate "\n" (rest.dropLast) ++ "\n" ++
      jsSubstring (rest.getLastD l) 0 endCol

/-- Models `sendSelectionChanged` (part_000 lines 258-359): early-out when the
server is stopped, the buffer is gone, or it has no name; in visual mode
the normalized visual range and its text are sent (`isEmpty` iff start and
end coincide), otherwise the cursor position as an empty selection; the
notification is broadcast and `lastSelectionBuffer` is set to `bufnr` —
whether or not the selection was empty. -/
def sendSelectionChanged (st : ManagerState) (ed : Editor) (ui : UiState)
    (bufnr : Nat) : ManagerState × List SelectionNotif :=
  if !st.running then (st, [])
  else
    match findBuffer ed bufnr with
    | none => (st, [])
    | some buffer =>
        let filePath := buffer.name
        if filePath == "" then (st, [])
        else
          let isVisual := ui.mode == "v" || ui.mode == "V" || ui.mode == "\x16"
          let notif : SelectionNotif :=
            if isVisual then
              let p := ui.vStart
              let q := ui.cursor
              let swap : Bool := p.1 > q.1 || (p.1 == q.1 && p.2 > q.2)
              let startLine := if swap then q.1 else p.1
              let startCol := if swap then q.2 else p.2
              let endLine := if swap then p.1 else q.1
              let endCol := if swap then p.2 else q.2
              let s : Position := ⟨startLine - 1, startCol - 1⟩
              let e : Position := ⟨endLine - 1, endCol⟩
              { text := visualText (getline buffer.lines startLine endLine) startCol endCol,
                filePath, fileUrl := "file://" ++ filePath,
                selStart := s, selEnd := e,
                isEmpty := s.line == e.line && s.character == e.character }
            else
              let c : Position := ⟨ui.cursor.1 - 1, ui.cursor.2 - 1⟩
              { text := "", filePath, fileUrl := "file://" ++ filePath,
                selStart := c, selEnd := c, isEmpty := true }
          ({ st with lastSelectionBuffer := some bufnr }, [notif])

/-- Models `sendEmptySelection` (part_000 lines 364-420): same early-outs, then the
cursor position as an `isEmpty` notification; it does not itself update
`lastSelectionBuffer`. -/
def sendEmptySelection (st : ManagerState) (ed : Editor) (ui : UiState)
    (bufnr : Nat) : ManagerState × List SelectionNotif :=
  if !st.running then (st, [])
  else
    match findBuffer ed bufnr with
    | none => (st, [])
    | some buffer =>
        let filePath := buffer.name
        if filePath == "" then (st, [])
        else
          let c : Position := ⟨ui.cursor.1 - 1, ui.cursor.2 - 1⟩
          (st, [{ text := "", filePath, fileUrl := "file://" ++ filePath,
                  selStart := c, selEnd := c, isEmpty := true }])

/-- Models `startSelectionTracking` (part_000 lines 425-434). -/
def startSelectionTracking (st : ManagerState) (bufnr : Nat) : ManagerState :=
  if st.selectionTracking.contains bufnr then st
  else { st with selectionTracking := st.selectionTracking ++ [bufnr] }

/-- Models `stopSelectionTracking` (part_000 lines 439-453): no-op when not
tracking; otherwise remove the buffer from the tracking set and, exactly
when `lastSelectionBuffer === bufnr`, send one empty-selection notification
and reset `lastSelectionBuffer`. -/
def stopSelectionTracking (st : ManagerState) (ed : Editor) (ui : UiState)
    (bufnr : Nat) : ManagerState × List SelectionNotif :=
  if !(st.selectionTracking.contains bufnr) then (st, [])
  else
    let st1 := { st with
      selectionTracking := st.selectionTracking.filter (fun b => b != bufnr) }
    if st1.lastSelectionBuffer == some bufnr then
      let r := sendEmptySelection st1 ed ui bufnr
      ({ r.1 with lastSelectionBuffer := none }, r.2)
    else (st1, [])

/-- Models `handleSelectionUpdate` (part_000 lines 458-464): the CursorMoved /
CursorMovedI / TextYankPost autocmd body for a tracked buffer. -/
def handleSelectionUpdate (st : ManagerState) (ed : Editor) (ui : UiState)
    (bufnr : Nat) : ManagerState × List SelectionNotif :=
  if st.selectionTracking.contains bufnr then sendSelectionChanged st ed ui bufnr
  else (st, [])

/-! ## The discovery (lock) file (ws-server.ts lines 53-112) -/

/-- The `LockFile` interface of ws-server.ts. -/
structure LockFile where
  pid : Nat
  workspaceFolders : List String
  ideName : String
  transport : String
  authToken : String
  deriving Repr, DecidableEq

/-- The `ClaudeWebSocketServerConfig` interface (optional fields model the
`?` properties). -/
structure ClaudeWebSocketServerConfig where
  port : Nat
  path : Option String
  workspaceFolders : Option (List String)
  ideName : Option String
  deriving Repr, DecidableEq

/-- Lower-case hex digit of `n % 16`. -/
def hexChar (n : Nat) : Char :=
  if n % 16 < 10 then Char.ofNat (48 + n % 16) else Char.ofNat (87 + n % 16)

/-- Two-digit lower-case hex of a byte. -/
def byteHex (b : Nat) : String :=
  ⟨[hexChar (b / 16), hexChar b]⟩

/-- Hex rendering of a byte string. -/
def bytesHex : List Nat → String
  | [] => ""
  | b :: bs => byteHex b ++ bytesHex bs

/-- RFC 4122 version/variant adjustment performed by `crypto.randomUUID`:
byte 6 keeps its low nibble under version `4`, byte 8 keeps its low six
bits under variant `10`. -/
def v4Adjust (bs : List Nat) : List Nat :=
  bs.enum.map (fun p =>
    if p.1 == 6 then p.2 % 16 + 64
    else if p.1 == 8 then p.2 % 64 + 128
    else p.2)

/-- The 8-4-4-4-12 hyphenated rendering of 16 bytes. -/
def formatUUID (bs : List Nat) : String :=
  bytesHex (bs.take 4) ++ "-" ++ bytesHex ((bs.drop 4).take 2) ++ "-" ++
  bytesHex ((bs.drop 6).take 2) ++ "-" ++ bytesHex ((bs.drop 8).take 2) ++ "-" ++
  bytesHex (bs.drop 10)

/-- Models `crypto.randomUUID()`, applied to the 16 random bytes it draws. -/
def randomUUID (bs : List Nat) : String :=
  formatUUID (v4Adjust bs)

/-- Models `join(homedir(), '.claude', 'ide', port + '.lock')`. -/
def lockFilePathOf (home : String) (port : Nat) : String :=
  home ++ "/.claude/ide/" ++ toString port ++ ".lock"

/-- A `writeFileSync` performed during server creation. -/
structure FileWrite where
  path : String
  contents : LockFile
  deriving Repr, DecidableEq

/-- The handle returned by `createClaudeWebSocketServer`, with the cleanup
state its `close` listener mutates. -/
structure WsServerHandle where
  port : Nat
  host : String
  authToken : String
  lockFilePath : String
  lockFilePresent : Bool
  deriving Repr, DecidableEq

/-- Models `createClaudeWebSocketServer` (ws-server.ts lines 53-112): defaults the
optional config fields, draws one auth token, writes exactly one lock file
at the port-derived path, and binds the listener to `127.0.0.1`. `cwd` is
`process.cwd()`, `home` is `homedir()`, `uuidBytes` are the random bytes
behind `randomUUID()`. -/
def createClaudeWebSocketServer (config : ClaudeWebSocketServerConfig)
    (pid : Nat) (cwd home : String) (uuidBytes : List Nat) :
    WsServerHandle × List FileWrite :=
  let workspaceFolders := config.workspaceFolders.getD [cwd]
  let ideName := config.ideName.getD "neovim"
  let authToken := randomUUID uuidBytes
  let lockPath := lockFilePathOf home config.port
  let lockData : LockFile :=
    { pid, workspaceFolders, ideName, transport := "ws", authToken }
  ({ port := config.port, host := "127.0.0.1", authToken,
     lockFilePath := lockPath, lockFilePresent := true },
   [⟨lockPath, lockData⟩])

/-- The `wss.on('close', ...)` handler (ws-server.ts lines 102-110): unlinks
the lock file; `stop` reaches it through `wss.close()`. -/
def wssCloseHandler (h : WsServerHandle) : WsServerHandle :=
  { h with lockFilePresent := false }

/-! ## Lemmas about the correlation table and the editor -/

theorem mapHas_mapDelete (ps : DiffPromises) (k : String) :
    mapHas (mapDelete ps k) k = false := by
  induction ps with
  | nil => rfl
  | cons p ps ih =>
      by_cases h : p.1 == k
      · simp [mapDelete, mapHas, h, bne, ih]
      · simp [mapDelete, mapHas, h, bne, ih]

theorem mapHas_isSome (ps : DiffPromises) (k : String) :
    mapHas ps k = (mapGet? ps k).isSome := by
  induction ps with
  | nil => rfl
  | cons p ps ih =>
      by_cases h : p.1 == k
      · simp [mapHas, mapGet?, List.find?_cons, h]
      · simpa [mapHas, mapGet?, List.find?_cons, h] using ih

theorem mapHas_of_mapGet? {ps : DiffPromises} {k : String} {rec : DiffRecord}
    (h : mapGet? ps k = some rec) : mapHas ps k = true := by
  rw [mapHas_isSome, h]; rfl

theorem findBuffer_setBufModified (ed : Editor) (n : Nat) (m : Bool) :
    findBuffer (setBufModified ed n m) n =
      (findBuffer ed n).map (fun b => { b with modified := m }) := by
  induction ed with
  | nil => rfl
  | cons b ed ih =>
      by_cases h : b.id == n
      · have h' : b.id = n := by simpa using h
        simp [findBuffer, setBufModified, List.find?_cons, h, h']
      · have h' : ¬(b.id = n) := by simpa using h
        simpa [findBuffer, setBufModified, List.find?_cons, h, h'] using ih

theorem findBuffer_id {ed : Editor} {n : Nat} {buf : Buffer}
    (h : findBuffer ed n = some buf) : buf.id = n := by
  have := List.find?_some h
  simpa using this

/-! ## Resolution triggers -/

/-- The three triggers that can resolve a pending diff: the accept path
(`ClaudeAccept` command / `BufWriteCmd` autocmd → `acceptChanges`), the
drop path (`ClaudeDrop` → `dropChanges`), and the out-of-band teardown
(the `BufWipeout` autocmd, part_000 lines 715-735, which also calls
`dropChanges`). -/
inductive Resolver where
  | accept
  | drop
  | teardown
  deriving Repr, DecidableEq

/-- Dispatch of each trigger to the handler it runs. -/
def runResolver : Resolver → DiffPromises → Editor → String → ResolveResult
  | .accept => acceptChanges
  | .drop => dropChanges
  | .teardown => dropChanges

theorem acceptChanges_not_found (ps : DiffPromises) (ed : Editor) (k : String)
    (h : mapHas ps k = false) : acceptChanges ps ed k = ⟨false, ps, ed, []⟩ := by
  simp [acceptChanges, h]

theorem dropChanges_not_found (ps : DiffPromises) (ed : Editor) (k : String)
    (h : mapHas ps k = false) : dropChanges ps ed k = ⟨false, ps, ed, []⟩ := by
  simp [dropChanges, h]

theorem runResolver_not_found (o : Resolver) (ps : DiffPromises) (ed : Editor)
    (k : String) (h : mapHas ps k = false) :
    runResolver o ps ed k = ⟨false, ps, ed, []⟩ := by
  cases o <;>
    simp [runResolver, acceptChanges_not_found, dropChanges_not_found, h]

theorem runResolver_success (o : Resolver) (ps : DiffPromises) (ed : Editor)
    (k : String) (h : (runResolver o ps ed k).success = true) :
    (runResolver o ps ed k).pending = mapDelete ps k ∧
    (runResolver o ps ed k).events.map ResolveEvent.key = [k] := by
  by_cases hm : mapHas ps k
  · cases o with
    | accept =>
        cases hb : (parseBufnr k).bind (findBuffer ed) with
        | none => simp [runResolver, acceptChanges, hm, hb] at h
        | some buf => simp [runResolver, acceptChanges, hm, hb]
    | drop => simp [runResolver, dropChanges, hm]
    | teardown => simp [runResolver, dropChanges, hm]
  · rw [runResolver_not_found o ps ed k (by simpa using hm)] at h
    simp at h

/-! ## Claim theorems -/

/-- C1: for every correlation key `k`, at most one of `acceptChanges k`,
`dropChanges k`, or the BufWipeout teardown drop succeeds — whichever
resolution trigger succeeds first removes `k` from the pending table and
completes its continuation exactly once (one resolution event, for `k`),
and any subsequent trigger with the same `k` returns false without
completing the continuation again (no events), whatever the editor looks
like by then. -/
theorem resolution_at_most_once (o1 o2 : Resolver) (ps : DiffPromises)
    (ed : Editor) (k : String)
    (h : (runResolver o1 ps ed k).success = true) :
    mapHas (runResolver o1 ps ed k).pending k = false ∧
    (runResolver o1 ps ed k).events.map ResolveEvent.key = [k] ∧
    ∀ ed' : Editor,
      runResolver o2 (runResolver o1 ps ed k).pending ed' k =
        ⟨false, (runResolver o1 ps ed k).pending, ed', []⟩ := by
  obtain ⟨hp, he⟩ := runResolver_success o1 ps ed k h
  have hno : mapHas (runResolver o1 ps ed k).pending k = false := by
    rw [hp]; exact mapHas_mapDelete ps k
  exact ⟨hno, he, fun ed' => runResolver_not_found o2 _ ed' k hno⟩

/-- Witness for C1: a concrete pending key, first dropped, then accepted. -/
theorem resolution_at_most_once_witness :
    (runResolver .drop [("9/3", ⟨"/f.txt", 3⟩)] [] "9/3").success = true ∧
    mapHas (runResolver .drop [("9/3", ⟨"/f.txt", 3⟩)] [] "9/3").pending "9/3" = false ∧
    runResolver .accept
        (runResolver .drop [("9/3", ⟨"/f.txt", 3⟩)] [] "9/3").pending [] "9/3" =
      ⟨false, (runResolver .drop [("9/3", ⟨"/f.txt", 3⟩)] [] "9/3").pending, [], []⟩ :=
  ⟨by decide,
   (resolution_at_most_once .drop .accept [("9/3", ⟨"/f.txt", 3⟩)] [] "9/3" (by decide)).1,
   (resolution_at_most_once .drop .accept [("9/3", ⟨"/f.txt", 3⟩)] [] "9/3" (by decide)).2.2 []⟩

/-- C3: with a pending record for `k` whose buffer still exists,
`acceptChanges k` reads the buffer's current lines back, completes the
continuation with the FILE_SAVED payload carrying that content, clears the
buffer's `modified` flag, removes the record and returns true; with no
record for `k` it returns false; in particular a second `acceptChanges k`
right after a successful one returns false. -/
theorem acceptChanges_accept_spec (ps : DiffPromises) (ed ed' : Editor)
    (k : String) (rec : DiffRecord) (buf : Buffer)
    (hrec : mapGet? ps k = some rec)
    (hparse : parseBufnr k = some rec.bufnr)
    (hbuf : findBuffer ed rec.bufnr = some buf) :
    (acceptChanges ps ed k).success = true ∧
    (acceptChanges ps ed k).events =
      [⟨k, fileSavedPayload (String.intercalate "\n" buf.lines)⟩] ∧
    findBuffer (acceptChanges ps ed k).editor rec.bufnr =
      some { buf with modified := false } ∧
    mapHas (acceptChanges ps ed k).pending k = false ∧
    (∀ qs : DiffPromises, mapHas qs k = false →
      (acceptChanges qs ed' k).success = false) ∧
    (acceptChanges (acceptChanges ps ed k).pending ed' k).success = false := by
  have hhas : mapHas ps k = true := mapHas_of_mapGet? hrec
  have hbind : (parseBufnr k).bind (findBuffer ed) = some buf := by
    rw [hparse]; simpa using hbuf
  have hid : buf.id = rec.bufnr := findBuffer_id hbuf
  have hrw : acceptChanges ps ed k =
      ⟨true, mapDelete ps k, setBufModified ed buf.id false,
       [⟨k, fileSavedPayload (String.intercalate "\n" buf.lines)⟩]⟩ := by
    simp [acceptChanges, hhas, hbind]
  have hnotfound : ∀ qs : DiffPromises, mapHas qs k = false →
      (acceptChanges qs ed' k).success = false := by
    intro qs hqs
    rw [acceptChanges_not_found qs ed' k hqs]
  have hgone : mapHas (acceptChanges ps ed k).pending k = false := by
    rw [hrw]; exact mapHas_mapDelete ps k
  refine ⟨by rw [hrw], by rw [hrw], ?_, hgone, hnotfound, hnotfound _ hgone⟩
  rw [hrw]
  show findBuffer (setBufModified ed buf.id false) rec.bufnr = _
  rw [hid, findBuffer_setBufModified, hbuf]
  simp [hid]

/-- Witness for C3: accepting a concrete pending diff whose buffer holds
the (edited) lines `["hello", ""]`. -/
theorem acceptChanges_accept_spec_witness :
    mapGet? [("7/2", ⟨"/a.txt", 2⟩)] "7/2" = some ⟨"/a.txt", 2⟩ ∧
    ((acceptChanges [("7/2", ⟨"/a.txt", 2⟩)]
        [⟨2, "tab1", ["hello", ""], true⟩] "7/2").success = true ∧
      (acceptChanges [("7/2", ⟨"/a.txt", 2⟩)]
        [⟨2, "tab1", ["hello", ""], true⟩] "7/2").events =
        [⟨"7/2", fileSavedPayload (String.intercalate "\n" ["hello", ""])⟩]) :=
  ⟨by decide,
   (acceptChanges_accept_spec [("7/2", ⟨"/a.txt", 2⟩)]
      [⟨2, "tab1", ["hello", ""], true⟩] [] "7/2" ⟨"/a.txt", 2⟩
      ⟨2, "tab1", ["hello", ""], true⟩ (by decide) (by decide) (by decide)).1,
   (acceptChanges_accept_spec [("7/2", ⟨"/a.txt", 2⟩)]
      [⟨2, "tab1", ["hello", ""], true⟩] [] "7/2" ⟨"/a.txt", 2⟩
      ⟨2, "tab1", ["hello", ""], true⟩ (by decide) (by decide) (by decide)).2.1⟩

/-- C9: with a pending record for `k` whose buffer no longer exists,
`acceptChanges k` returns false and changes nothing: the record stays
pending, the editor is untouched, and no continuation is completed. -/
theorem acceptChanges_missing_buffer (ps : DiffPromises) (ed : Editor)
    (k : String) (rec : DiffRecord)
    (hrec : mapGet? ps k = some rec)
    (hparse : parseBufnr k = some rec.bufnr)
    (hbuf : findBuffer ed rec.bufnr = none) :
    acceptChanges ps ed k = ⟨false, ps, ed, []⟩ := by
  have hhas : mapHas ps k = true := mapHas_of_mapGet? hrec
  have hbind : (parseBufnr k).bind (findBuffer ed) = none := by
    rw [hparse]; simpa using hbuf
  simp [acceptChanges, hhas, hbind]

/-- Witness for C9: accepting a pending diff whose buffer was wiped. -/
theorem acceptChanges_missing_buffer_witness :
    mapGet? [("7/2", ⟨"/a.txt", 2⟩)] "7/2" = some ⟨"/a.txt", 2⟩ ∧
    acceptChanges [("7/2", ⟨"/a.txt", 2⟩)] [] "7/2" =
      ⟨false, [("7/2", ⟨"/a.txt", 2⟩)], [], []⟩ :=
  ⟨by decide,
   acceptChanges_missing_buffer [("7/2", ⟨"/a.txt", 2⟩)] [] "7/2" ⟨"/a.txt", 2⟩
     (by decide) (by decide) (by decide)⟩

/-- C10: with a pending record for `k`, `dropChanges k` completes the
continuation with the DIFF_REJECTED payload, removes the record and returns
true whether or not the buffer still exists — buffer absence only skips the
clearing of its `modified` flag (editor untouched) — so the BufWipeout
teardown path, which calls `dropChanges` after the buffer is destroyed,
cannot strand a pending continuation. -/
theorem dropChanges_resolves_without_buffer (ps : DiffPromises) (ed : Editor)
    (k : String) (rec : DiffRecord) (hrec : mapGet? ps k = some rec) :
    (dropChanges ps ed k).success = true ∧
    (dropChanges ps ed k).events = [⟨k, diffRejectedPayload⟩] ∧
    (dropChanges ps ed k).pending = mapDelete ps k ∧
    mapHas (dropChanges ps ed k).pending k = false ∧
    ((parseBufnr k).bind (findBuffer ed) = none →
      (dropChanges ps ed k).editor = ed) := by
  have hhas : mapHas ps k = true := mapHas_of_mapGet? hrec
  refine ⟨by simp [dropChanges, hhas], by simp [dropChanges, hhas],
    by simp [dropChanges, hhas], ?_, ?_⟩
  · have : (dropChanges ps ed k).pending = mapDelete ps k := by
      simp [dropChanges, hhas]
    rw [this]; exact mapHas_mapDelete ps k
  · intro hb; simp [dropChanges, hhas, hb]

/-- Witness for C10: dropping a pending diff after its buffer is gone. -/
theorem dropChanges_resolves_without_buffer_witness :
    mapGet? [("7/2", ⟨"/a.txt", 2⟩)] "7/2" = some ⟨"/a.txt", 2⟩ ∧
    ((dropChanges [("7/2", ⟨"/a.txt", 2⟩)] [] "7/2").success = true ∧
      (dropChanges [("7/2", ⟨"/a.txt", 2⟩)] [] "7/2").events =
        [⟨"7/2", diffRejectedPayload⟩]) :=
  ⟨by decide,
   (dropChanges_resolves_without_buffer [("7/2", ⟨"/a.txt", 2⟩)] [] "7/2"
      ⟨"/a.txt", 2⟩ (by decide)).1,
   (dropChanges_resolves_without_buffer [("7/2", ⟨"/a.txt", 2⟩)] [] "7/2"
      ⟨"/a.txt", 2⟩ (by decide)).2.1⟩

/-- C8: `close_tab` on a tab name with no matching buffer returns the
TAB_CLOSED payload without error and without changing any state, and a
second sequential call with that name again returns TAB_CLOSED. -/
theorem close_tab_missing_idempotent (ps : DiffPromises) (ed : Editor)
    (pid : Nat) (name : String) (h : findBufferByName ed name = none) :
    close_tab ps ed pid name = .ok (ps, ed, "TAB_CLOSED") ∧
    (∀ ps' ed' r, close_tab ps ed pid name = .ok (ps', ed', r) →
      r = "TAB_CLOSED" ∧
      close_tab ps' ed' pid name = .ok (ps', ed', "TAB_CLOSED")) := by
  have h1 : close_tab ps ed pid name = .ok (ps, ed, "TAB_CLOSED") := by
    simp [close_tab, h]
  refine ⟨h1, fun ps' ed' r hr => ?_⟩
  rw [h1] at hr
  obtain ⟨hps, hed, hrr⟩ : ps = ps' ∧ ed = ed' ∧ "TAB_CLOSED" = r := by
    simpa using hr
  subst hps; subst hed; subst hrr
  exact ⟨rfl, h1⟩

/-- Witness for C8: two sequential `close_tab "missing.txt"` calls with no
matching buffer. -/
theorem close_tab_missing_idempotent_witness :
    close_tab [] [⟨1, "other.txt", ["x"], false⟩] 9 "missing.txt" =
      .ok ([], [⟨1, "other.txt", ["x"], false⟩], "TAB_CLOSED") :=
  (close_tab_missing_idempotent [] [⟨1, "other.txt", ["x"], false⟩] 9
    "missing.txt" (by decide)).1

/-- C4: an inbound upgrade request is accepted iff its
`x-claude-code-ide-authorization` header equals the session token; on any
mismatch (absent header or wrong token) the upgrade is rejected with 401
Unauthorized before any session object is created, so the session count is
unchanged. -/
theorem upgrade_accept_iff_token (st : ManagerState) (tok : String)
    (hdr : Option String) (ws : Nat) :
    ((handleUpgrade st tok hdr ws).2.1 = true ↔ hdr = some tok) ∧
    (hdr ≠ some tok →
      handleUpgrade st tok hdr ws = (st, false, some (401, "Unauthorized")) ∧
      getClientCount (handleUpgrade st tok hdr ws).1 = getClientCount st) := by
  by_cases h : hdr = some tok
  · simp [handleUpgrade, verifyClient, h]
  · simp [handleUpgrade, verifyClient, h]

/-- Witness for C4: a wrong token against a concrete manager state. -/
theorem upgrade_accept_iff_token_witness :
    handleUpgrade ⟨true, 1, [], [], true, [], none⟩ "tok" (some "wrong") 5 =
      (⟨true, 1, [], [], true, [], none⟩, false, some (401, "Unauthorized")) ∧
    getClientCount (handleUpgrade ⟨true, 1, [], [], true, [], none⟩ "tok"
        (some "wrong") 5).1 =
      getClientCount ⟨true, 1, [], [], true, [], none⟩ :=
  (upgrade_accept_iff_token ⟨true, 1, [], [], true, [], none⟩ "tok"
    (some "wrong") 5).2 (by decide)

/-! ## Lemmas about the auth token length -/

theorem byteHex_length (b : Nat) : (byteHex b).length = 2 := rfl

theorem bytesHex_length (bs : List Nat) : (bytesHex bs).length = 2 * bs.length := by
  induction bs with
  | nil => rfl
  | cons b bs ih =>
      simp only [bytesHex, String.length_append, byteHex_length, ih,
        List.length_cons]
      omega

theorem v4Adjust_length (bs : List Nat) : (v4Adjust bs).length = bs.length := by
  simp [v4Adjust]

theorem formatUUID_length (bs : List Nat) (h : bs.length = 16) :
    (formatUUID bs).length = 36 := by
  simp only [formatUUID, String.length_append, bytesHex_length,
    List.length_take, List.length_drop, h]
  rfl

theorem randomUUID_length (bs : List Nat) (h : bs.length = 16) :
    (randomUUID bs).length = 36 :=
  formatUUID_length _ (by rw [v4Adjust_length, h])

/-- C6: `createClaudeWebSocketServer` writes exactly one discovery file, at
the path derived deterministically from the port, containing the JSON
object `{pid, workspaceFolders, ideName, transport: "ws", authToken}`
whose token is 36 characters long (when `randomUUID` draws its 16 random
bytes); the `wss.on('close')` handler — which `stop` reaches through
`wss.close()` — removes the file. -/
theorem discovery_file_spec (config : ClaudeWebSocketServerConfig)
    (pid : Nat) (cwd home : String) (uuidBytes : List Nat)
    (hlen : uuidBytes.length = 16) :
    (createClaudeWebSocketServer config pid cwd home uuidBytes).2 =
      [⟨lockFilePathOf home config.port,
        { pid := pid,
          workspaceFolders := config.workspaceFolders.getD [cwd],
          ideName := config.ideName.getD "neovim",
          transport := "ws",
          authToken := randomUUID uuidBytes }⟩] ∧
    (createClaudeWebSocketServer config pid cwd home uuidBytes).1.authToken.length = 36 ∧
    (createClaudeWebSocketServer config pid cwd home uuidBytes).1.lockFilePresent = true ∧
    (wssCloseHandler
      (createClaudeWebSocketServer config pid cwd home uuidBytes).1).lockFilePresent =
      false :=
  ⟨rfl, randomUUID_length _ hlen, rfl, rfl⟩

/-- Witness for C6: a concrete config with all-zero random bytes. -/
theorem discovery_file_spec_witness :
    (createClaudeWebSocketServer ⟨45678, none, none, none⟩ 321 "/w" "/home/u"
        (List.replicate 16 0)).2 =
      [⟨lockFilePathOf "/home/u" 45678,
        { pid := 321, workspaceFolders := ["/w"], ideName := "neovim",
          transport := "ws",
          authToken := randomUUID (List.replicate 16 0) }⟩] ∧
    (createClaudeWebSocketServer ⟨45678, none, none, none⟩ 321 "/w" "/home/u"
        (List.replicate 16 0)).1.authToken.length = 36 :=
  ⟨(discovery_file_spec ⟨45678, none, none, none⟩ 321 "/w" "/home/u"
      (List.replicate 16 0) (by decide)).1,
   (discovery_file_spec ⟨45678, none, none, none⟩ 321 "/w" "/home/u"
      (List.replicate 16 0) (by decide)).2.1⟩

/-! ## Lemmas about the heartbeat run -/

theorem runHeartbeat_inactive (c : ClientSession) (fails : List Bool)
    (h : c.heartbeatActive = false) : runHeartbeat c fails = (c, []) := by
  induction fails with
  | nil => rfl
  | cons f fs ih => simp [runHeartbeat, heartbeatTick, h, ih]

theorem runHeartbeat_ids (c : ClientSession) (fails : List Bool) :
    (runHeartbeat c fails).2.map PingMsg.id =
      List.range' c.pingId (runHeartbeat c fails).2.length := by
  induction fails generalizing c with
  | nil => rfl
  | cons f fs ih =>
      by_cases ha : c.heartbeatActive
      · by_cases ho : c.wsOpen
        · by_cases hf : f
          · have hrest : runHeartbeat
                ⟨c.ws, false, false, c.pingId + 1⟩ fs =
                (⟨c.ws, false, false, c.pingId + 1⟩, []) :=
              runHeartbeat_inactive _ fs rfl
            simp [runHeartbeat, heartbeatTick, ha, ho, hf, hrest,
              List.range'_succ]
          · have := ih { c with pingId := c.pingId + 1 }
            simp only [runHeartbeat, heartbeatTick, ha, ho, hf] at *
            simp [this, List.range'_succ]
        · simpa [runHeartbeat, heartbeatTick, ha, ho] using ih c
      · simpa [runHeartbeat, heartbeatTick, ha] using ih c

/-- C7: for every live client, the probes sent over any run of heartbeat
ticks from a fresh session carry the ids 0, 1, 2, ... — strictly increasing
from 0; a tick whose `ws.send` reports a transport error clears that
session's interval and closes its connection; and an interval firing for
one socket leaves every other session of the manager exactly as it was. -/
theorem heartbeat_probe_spec (ws : Nat) (fails : List Bool)
    (c : ClientSession) (st : ManagerState) (f : Bool) :
    ((runHeartbeat ⟨ws, true, true, 0⟩ fails).2.map PingMsg.id =
      List.range (runHeartbeat ⟨ws, true, true, 0⟩ fails).2.length) ∧
    (c.heartbeatActive = true → c.wsOpen = true →
      (heartbeatTick c true).1.heartbeatActive = false ∧
      (heartbeatTick c true).1.wsOpen = false ∧
      (heartbeatTick c true).2.map PingMsg.id = [c.pingId]) ∧
    (managerTick st ws f).1.sessions =
      st.sessions.map (fun s => if s.ws == ws then (heartbeatTick s f).1 else s) := by
  refine ⟨?_, ?_, ?_⟩
  · rw [runHeartbeat_ids, List.range_eq_range']
  · intro ha ho
    refine ⟨?_, ?_, ?_⟩ <;> simp [heartbeatTick, ha, ho]
  · simp only [managerTick, List.map_map]
    refine List.map_congr_left ?_
    intro s _
    by_cases h : s.ws == ws <;> simp [Function.comp, h]

/-- Witness for C7: a run with one delivered and one failed probe, and one
failing tick on a live session among two. -/
theorem heartbeat_probe_spec_witness :
    ((runHeartbeat ⟨1, true, true, 0⟩ [false, true]).2.map PingMsg.id =
      List.range (runHeartbeat ⟨1, true, true, 0⟩ [false, true]).2.length) ∧
    ((heartbeatTick ⟨1, true, true, 7⟩ true).1.heartbeatActive = false ∧
      (heartbeatTick ⟨1, true, true, 7⟩ true).1.wsOpen = false ∧
      (heartbeatTick ⟨1, true, true, 7⟩ true).2.map PingMsg.id = [7]) :=
  ⟨(heartbeat_probe_spec 1 [false, true] ⟨1, true, true, 7⟩
      ⟨true, 1, [], [], true, [], none⟩ true).1,
   (heartbeat_probe_spec 1 [false, true] ⟨1, true, true, 7⟩
      ⟨true, 1, [], [], true, [], none⟩ true).2.1 rfl rfl⟩

theorem not_mem_filter_ne (l : List Nat) (n : Nat) :
    n ∉ l.filter (fun b => b != n) := by
  simp [List.mem_filter]

/-- C5 is false on the code: `sendSelectionChanged` records
`lastSelectionBuffer = bufnr` on both of its paths (part_000 line 354),
also when the notification it just sent was empty, and
`stopSelectionTracking` only tests `lastSelectionBuffer === bufnr`.
Concretely: buffer 1 is tracked, one normal-mode cursor move sends an
`isEmpty` notification for it (so the last selection notification sent for
buffer 1 was empty), and `stopSelectionTracking 1` nonetheless emits one
more empty-selection notification — refuting the claim's "if and only if
the last selection notification sent for A was non-empty". -/
theorem stopSelectionTracking_empty_last_counterexample :
    ((handleSelectionUpdate ⟨true, 1, [], [], true, [1], none⟩
        [⟨1, "a.txt", ["hello"], false⟩] ⟨"n", (1, 1), (1, 1)⟩ 1).2.map
      SelectionNotif.isEmpty = [true]) ∧
    (stopSelectionTracking
        (handleSelectionUpdate ⟨true, 1, [], [], true, [1], none⟩
          [⟨1, "a.txt", ["hello"], false⟩] ⟨"n", (1, 1), (1, 1)⟩ 1).1
        [⟨1, "a.txt", ["hello"], false⟩] ⟨"n", (1, 1), (1, 1)⟩ 1).2.length = 1 := by
  decide

/-- C5 amended: for a tracked buffer A, disabling tracking emits exactly
one final empty-selection notification if and only if A is the buffer the
last selection notification (empty or not) was sent for
(`lastSelectionBuffer = A`) and A still resolves to a named buffer (the
emptiness of that last notification plays no role); every emitted final
notification is an empty selection, and A is no longer tracked
afterwards. -/
theorem stopSelectionTracking_final_empty (st : ManagerState) (ed : Editor)
    (ui : UiState) (bufnr : Nat)
    (htrack : st.selectionTracking.contains bufnr = true)
    (hrun : st.running = true) :
    ((stopSelectionTracking st ed ui bufnr).2.length = 1 ↔
      (st.lastSelectionBuffer = some bufnr ∧
        ∃ buf, findBuffer ed bufnr = some buf ∧ buf.name ≠ "")) ∧
    (∀ n ∈ (stopSelectionTracking st ed ui bufnr).2, n.isEmpty = true) ∧
    (stopSelectionTracking st ed ui bufnr).1.selectionTracking.contains bufnr
      = false := by
  have hmem : bufnr ∈ st.selectionTracking := by simpa using htrack
  by_cases hlast : st.lastSelectionBuffer = some bufnr
  · cases hfind : findBuffer ed bufnr with
    | none =>
        simp [stopSelectionTracking, sendEmptySelection, htrack, hmem, hrun,
          hlast, hfind, not_mem_filter_ne]
    | some buf =>
        by_cases hname : buf.name = ""
        · simp [stopSelectionTracking, sendEmptySelection, htrack, hmem, hrun,
            hlast, hfind, hname, not_mem_filter_ne]
        · simp [stopSelectionTracking, sendEmptySelection, htrack, hmem, hrun,
            hlast, hfind, hname, not_mem_filter_ne]
  · simp [stopSelectionTracking, htrack, hmem, hlast, not_mem_filter_ne]

/-- Witness for the amended C5: stopping tracking right after buffer 1 was
the last selection-notified buffer emits exactly one (empty) notification. -/
theorem stopSelectionTracking_final_empty_witness :
    (stopSelectionTracking ⟨true, 1, [], [], true, [1], some 1⟩
      [⟨1, "a.txt", ["h"], false⟩] ⟨"n", (1, 1), (1, 1)⟩ 1).2.length = 1 :=
  (stopSelectionTracking_final_empty ⟨true, 1, [], [], true, [1], some 1⟩
      [⟨1, "a.txt", ["h"], false⟩] ⟨"n", (1, 1), (1, 1)⟩ 1
      (by decide) rfl).1.mpr
    ⟨rfl, ⟨1, "a.txt", ["h"], false⟩, by decide, by decide⟩

/-- C2 evaluated at its failing input: a running manager with one live
session and one pending diff, "123/2". `stop` does cancel the session's
heartbeat interval before closing its socket, does close the server and
does remove the discovery file — but it completes no diff continuation:
its `resolved` output is literally `[]` and the pending record survives in
the table, so the `openDiff` caller awaiting "123/2" hangs forever. The
claim (and spec §5's cancellation requirement, restated by §3's
resolve-exactly-once invariant) says all N pending continuations are
terminated; the code never touches `diffPromises` in `stop`. -/
theorem stop_strands_pending_diffs :
    stop ⟨true, 43210, [⟨0, true, true, 5⟩], [("123/2", ⟨"/a.txt", 2⟩)],
        true, [], none⟩ =
      .ok ⟨⟨false, 43210, [], [("123/2", ⟨"/a.txt", 2⟩)], false, [], none⟩,
        [.timerCancelled 0, .mcpServerClosed 0, .socketClosed 0, .wssClosed,
         .lockFileRemoved], []⟩ ∧
    mapHas [("123/2", ⟨"/a.txt", 2⟩)] "123/2" = true :=
  ⟨rfl, by decide⟩
